import Mathlib

/-!
Verification of `network_monitor.py` (a command-line network monitor for
speed, latency, and packet loss).

Floats are modelled as `ℚ`, Python ints as `ℕ`/`ℤ`.  External effects
(the ping subprocess, the `/proc/net/dev` counter source, the wall clock)
are supplied by an environment oracle: each tick receives the subprocess
outcome (return code and stdout), the counters read after the sleep, and
the relevant clock readings.
-/

namespace NetworkMonitor

/-- Mirrors the `InterfaceBytes` dataclass (lines 19-22): one cumulative
counter snapshot. -/
structure InterfaceBytes where
  rx_bytes : ℕ
  tx_bytes : ℕ
deriving DecidableEq

/-- Mirrors the `SampleResult` dataclass (lines 25-31). -/
structure SampleResult where
  timestamp : ℚ
  download_mbps : ℚ
  upload_mbps : ℚ
  latency_ms : Option ℚ
  packet_loss_pct : ℚ
deriving DecidableEq

/-! ### measure_latency (lines 96-102)

The regex `time=([0-9.]+) ms` is modelled by an explicit leftmost scan:
at each position try to match the literal `time=`, then the maximal
(greedy) run of characters in `[0-9.]`, then the literal ` ms`.  Since
none of ` `, `m`, `s` lies in `[0-9.]`, the greedy run never backtracks,
so maximal-run-then-literal is exactly the regex semantics. -/

/-- A character matched by the regex class `[0-9.]`. -/
def isTimeChar (c : Char) : Bool := c.isDigit || c == '.'

/-- Try to match `time=([0-9.]+) ms` at the head of the character list,
returning the captured group. -/
def matchTimeAt (cs : List Char) : Option (List Char) :=
  if cs.take 5 = "time=".data then
    let rest := cs.drop 5
    let run := rest.takeWhile isTimeChar
    let after := rest.dropWhile isTimeChar
    if run ≠ [] ∧ after.take 3 = " ms".data then some run else none
  else none

/-- Leftmost match of `time=([0-9.]+) ms`, as `re.search` does. -/
def searchTime : List Char → Option (List Char)
  | [] => none
  | c :: cs =>
    match matchTimeAt (c :: cs) with
    | some run => some run
    | none => searchTime cs

/-- Value of a digit list read in base 10. -/
def digitsVal (ds : List Char) : ℕ :=
  ds.foldl (fun acc d => 10 * acc + (d.toNat - 48)) 0

/-- Python `float()` applied to a string matched by `[0-9.]+`: defined when
there is at most one dot and at least one digit or a dot with digits on a
side; `none` models the strings Python would reject (for which the source
would raise `ValueError` rather than return — no claim exercises that
path). -/
def pyFloatOfTimeChars (s : List Char) : Option ℚ :=
  if s.count '.' = 0 then
    if s ≠ [] then some (digitsVal s) else none
  else if s.count '.' = 1 then
    let ip := s.takeWhile (fun c => c != '.')
    let fp := (s.dropWhile (fun c => c != '.')).drop 1
    if ip ≠ [] ∨ fp ≠ [] then
      some ((digitsVal ip : ℚ) + (digitsVal fp : ℚ) / (10 : ℚ) ^ fp.length)
    else none
  else none

/-- `measure_latency` (lines 96-102) with the subprocess outcome made
explicit: `returncode` and `stdout` are what `subprocess.run` produced.
Nonzero return code ⇒ `None`; otherwise the latency is the first
`time=([0-9.]+) ms` capture, or `None` when the pattern is absent. -/
def measure_latency (returncode : ℤ) (stdout : String) : Option ℚ :=
  if returncode ≠ 0 then none
  else
    match searchTime stdout.data with
    | none => none
    | some run => pyFloatOfTimeChars run

/-! ### compute_throughput (lines 105-112) -/

/-- `rx_delta = max(current.rx_bytes - previous.rx_bytes, 0)` (line 108). -/
def rx_delta (previous current : InterfaceBytes) : ℤ :=
  max ((current.rx_bytes : ℤ) - (previous.rx_bytes : ℤ)) 0

/-- `tx_delta = max(current.tx_bytes - previous.tx_bytes, 0)` (line 109). -/
def tx_delta (previous current : InterfaceBytes) : ℤ :=
  max ((current.tx_bytes : ℤ) - (previous.tx_bytes : ℤ)) 0

/-- `compute_throughput` (lines 105-112): download and upload rates in
Mbps. -/
def compute_throughput (previous current : InterfaceBytes) (interval : ℚ) :
    ℚ × ℚ :=
  ((rx_delta previous current : ℚ) * 8 / (1000000 * interval),
   (tx_delta previous current : ℚ) * 8 / (1000000 * interval))

/-! ### Counter source (lines 63-93)

`/proc/net/dev` is modelled as an association list of interface names and
their counters, in file order; parsing of the raw text lines is abstracted
into this list (the spec treats the counter source as an external
collaborator). -/

/-- Startup failures raised by the source: `ValueError` from
`read_interface_bytes` (line 75) and `RuntimeError` from
`default_interface` (line 93). -/
inductive MonitorError where
  | interfaceNotFound (interface : String)
  | noInterfaceAvailable
deriving DecidableEq

/-- `read_interface_bytes` (lines 63-75): first entry whose name matches,
else the `ValueError` of line 75. -/
def read_interface_bytes (source : List (String × InterfaceBytes))
    (interface : String) : Except MonitorError InterfaceBytes :=
  match source.find? (fun p => p.1 == interface) with
  | some p => .ok p.2
  | none => .error (.interfaceNotFound interface)

/-- `available_interfaces` (lines 78-85): the enumeration order of the
counter source. -/
def available_interfaces (source : List (String × InterfaceBytes)) :
    List String :=
  source.map Prod.fst

/-- `default_interface` (lines 88-93): first enumerated interface not in
`exclude`, else the `RuntimeError` of line 93. -/
def default_interface (source : List (String × InterfaceBytes))
    (exclude : List String) : Except MonitorError String :=
  match (available_interfaces source).find? (fun i => !exclude.contains i) with
  | some i => .ok i
  | none => .error .noInterfaceAvailable

/-! ### The scheduler loop (run_monitor, lines 132-166) -/

/-- Environment oracle for one tick: the outcome of every external effect
performed during that iteration of the `while` loop. -/
structure TickEnv where
  /-- Return code of the `ping` subprocess run on line 98. -/
  probeReturncode : ℤ
  /-- Stdout of the `ping` subprocess run on line 98. -/
  probeStdout : String
  /-- `time.time() - start` as measured inside the sleep call on
  line 147: the wall-clock time the probe took. -/
  probeDuration : ℚ
  /-- Counters returned by `read_interface_bytes` on line 149. -/
  counters : InterfaceBytes
  /-- The actual wall-clock time elapsed between the previous counter
  read and the read on line 149 (observable on the real clock, but never
  read by the code). -/
  gapSincePrevRead : ℚ
  /-- `time.time()` as read for the sample timestamp on line 157. -/
  sampleTime : ℚ
deriving DecidableEq

/-- Loop-carried state of `run_monitor`: `previous_bytes` (line 134),
the loss accumulator (lines 135-136) and the remaining iteration count
(line 140). -/
structure MonState where
  previous_bytes : InterfaceBytes
  total_pings : ℕ
  lost_pings : ℕ
  iterations : Option ℤ
deriving DecidableEq

/-- `args.interval or 1.0` (line 151): Python `or` substitutes `1.0` when
the configured interval is the falsy float `0.0`. -/
def throughputInterval (interval : ℚ) : ℚ :=
  if interval = 0 then 1 else interval

/-- `(lost_pings / total_pings) * 100 if total_pings else 0.0`
(line 155). -/
def loss_pct_of (lost_pings total_pings : ℕ) : ℚ :=
  if total_pings ≠ 0 then ((lost_pings : ℚ) / (total_pings : ℚ)) * 100 else 0

/-- One iteration of the `while` loop (lines 142-166).  Returns the new
loop state, the emitted sample, and the duration passed to `time.sleep`
on line 147. -/
def tick (interval : ℚ) (env : TickEnv) (s : MonState) :
    MonState × SampleResult × ℚ :=
  let latency := measure_latency env.probeReturncode env.probeStdout
  let total_pings := s.total_pings + 1
  let lost_pings := s.lost_pings + (if latency = none then 1 else 0)
  let sleepDuration := max (interval - env.probeDuration) 0
  let current_bytes := env.counters
  let rates :=
    compute_throughput s.previous_bytes current_bytes
      (throughputInterval interval)
  let loss_pct := loss_pct_of lost_pings total_pings
  let sample : SampleResult :=
    { timestamp := env.sampleTime
      download_mbps := rates.1
      upload_mbps := rates.2
      latency_ms := latency
      packet_loss_pct := loss_pct }
  ({ previous_bytes := current_bytes
     total_pings := total_pings
     lost_pings := lost_pings
     iterations := s.iterations.map (fun n => n - 1) },
   sample, sleepDuration)

/-- `args.count if args.count and args.count > 0 else None` (line 140):
a missing, zero, or negative count all yield `None`. -/
def initIterations : Option ℤ → Option ℤ
  | none => none
  | some n => if 0 < n then some n else none

/-- The `while iterations is None or iterations > 0` condition
(line 141). -/
def loopCond : Option ℤ → Bool
  | none => true
  | some n => decide (0 < n)

/-- Loop state at entry (lines 134-140): initial snapshot as
`previous_bytes`, both accumulators zero, iteration budget from the
parsed count. -/
def initState (previous_bytes : InterfaceBytes) (count : Option ℤ) :
    MonState :=
  { previous_bytes := previous_bytes
    total_pings := 0
    lost_pings := 0
    iterations := initIterations count }

/-- The `while` loop of lines 141-166, run with explicit fuel: it stops
early exactly when the loop condition fails, and each iteration consumes
the next tick environment. -/
def runMonitorLoop (interval : ℚ) :
    (ℕ → TickEnv) → MonState → ℕ → List SampleResult
  | _, _, 0 => []
  | env, s, fuel + 1 =>
    if loopCond s.iterations then
      (tick interval (env 0) s).2.1 ::
        runMonitorLoop interval (fun k => env (k + 1))
          (tick interval (env 0) s).1 fuel
    else []

/-- Loop state after `k` ticks. -/
def stateAfter (interval : ℚ) (env : ℕ → TickEnv) (s : MonState) :
    ℕ → MonState
  | 0 => s
  | k + 1 => (tick interval (env k) (stateAfter interval env s k)).1

/-- The sample emitted by tick number `k` (0-based). -/
def sampleAt (interval : ℚ) (env : ℕ → TickEnv) (s : MonState) (k : ℕ) :
    SampleResult :=
  (tick interval (env k) (stateAfter interval env s k)).2.1

/-- Whether the probe of tick `i` is recorded as lost (lines 145-146). -/
def probeFailed (env : ℕ → TickEnv) (i : ℕ) : Bool :=
  (measure_latency (env i).probeReturncode (env i).probeStdout).isNone

/-- Number of lost probes among ticks `0, …, n-1`. -/
def lostCount (env : ℕ → TickEnv) (n : ℕ) : ℕ :=
  ((List.range n).filter (probeFailed env)).length

/-- Observable output of `run_monitor`: the header line (line 138) and
one sample line per tick (line 163). -/
inductive OutEvent where
  | header (interface host : String)
  | sample (s : SampleResult)
deriving DecidableEq

/-- `args.interface or default_interface()` (line 133): Python `or` falls
back to `default_interface()` when the argument is missing or the falsy
empty string. -/
def resolveInterface (source : List (String × InterfaceBytes))
    (ifaceArg : Option String) : Except MonitorError String :=
  match ifaceArg with
  | some i => if i = "" then default_interface source ["lo"] else .ok i
  | none => default_interface source ["lo"]

/-- `run_monitor` (lines 132-166): resolve the interface, take the
initial snapshot (a failure here aborts before anything is printed),
print the header, then run the loop.  Per-tick counter reads are supplied
by the environment oracle. -/
def run_monitor (source : List (String × InterfaceBytes))
    (ifaceArg : Option String) (host : String) (interval : ℚ)
    (count : Option ℤ) (env : ℕ → TickEnv) (fuel : ℕ) :
    Except MonitorError (List OutEvent) :=
  match resolveInterface source ifaceArg with
  | .error e => .error e
  | .ok interface =>
    match read_interface_bytes source interface with
    | .error e => .error e
    | .ok previous_bytes =>
      .ok (.header interface host ::
        (runMonitorLoop interval env (initState previous_bytes count)
          fuel).map .sample)

/-! ### Concrete environments used to evaluate the model -/

/-- Ping stdout carrying a `time=… ms` pattern (successful probe). -/
def okStdout : String := "time=12.3 ms"

/-- Ping stdout with no `time=… ms` pattern. -/
def noTimeStdout : String := "no reply"

/-- A tick whose probe took 2.5 s of wall-clock time against a 1 s
interval; the gap since the previous counter read is likewise 2.5 s. -/
def overrunEnv : TickEnv :=
  { probeReturncode := 0
    probeStdout := okStdout
    probeDuration := 5 / 2
    counters := ⟨9000, 4500⟩
    gapSincePrevRead := 5 / 2
    sampleTime := 3 }

/-- Probe outcomes succeed, succeed, fail (tick 2 gets no `time=`
pattern), with steadily growing counters. -/
def envSSF : ℕ → TickEnv := fun i =>
  { probeReturncode := 0
    probeStdout := if i == 2 then noTimeStdout else okStdout
    probeDuration := 1 / 10
    counters := ⟨1000 * (i + 1), 500 * (i + 1)⟩
    gapSincePrevRead := 1
    sampleTime := (i : ℚ) }

/-! ### Projections of `tick` -/

theorem tick_total_pings (interval : ℚ) (env : TickEnv) (s : MonState) :
    (tick interval env s).1.total_pings = s.total_pings + 1 := rfl

theorem tick_lost_pings (interval : ℚ) (env : TickEnv) (s : MonState) :
    (tick interval env s).1.lost_pings =
      s.lost_pings +
        (if measure_latency env.probeReturncode env.probeStdout = none
          then 1 else 0) := rfl

theorem tick_iterations (interval : ℚ) (env : TickEnv) (s : MonState) :
    (tick interval env s).1.iterations =
      s.iterations.map (fun n => n - 1) := rfl

theorem tick_sleep (interval : ℚ) (env : TickEnv) (s : MonState) :
    (tick interval env s).2.2 = max (interval - env.probeDuration) 0 := rfl

theorem tick_sample_download (interval : ℚ) (env : TickEnv) (s : MonState) :
    (tick interval env s).2.1.download_mbps =
      (compute_throughput s.previous_bytes env.counters
        (throughputInterval interval)).1 := rfl

theorem tick_sample_upload (interval : ℚ) (env : TickEnv) (s : MonState) :
    (tick interval env s).2.1.upload_mbps =
      (compute_throughput s.previous_bytes env.counters
        (throughputInterval interval)).2 := rfl

theorem tick_sample_latency (interval : ℚ) (env : TickEnv) (s : MonState) :
    (tick interval env s).2.1.latency_ms =
      measure_latency env.probeReturncode env.probeStdout := rfl

theorem tick_sample_loss (interval : ℚ) (env : TickEnv) (s : MonState) :
    (tick interval env s).2.1.packet_loss_pct =
      loss_pct_of
        (s.lost_pings +
          (if measure_latency env.probeReturncode env.probeStdout = none
            then 1 else 0))
        (s.total_pings + 1) := rfl

/-! ### Throughput claims -/

theorem rx_delta_eq_natSub (previous current : InterfaceBytes) :
    rx_delta previous current =
      ((current.rx_bytes - previous.rx_bytes : ℕ) : ℤ) := by
  unfold rx_delta; omega

theorem tx_delta_eq_natSub (previous current : InterfaceBytes) :
    tx_delta previous current =
      ((current.tx_bytes - previous.tx_bytes : ℕ) : ℤ) := by
  unfold tx_delta; omega

/-- C2: for every pair of snapshots and positive elapsed time,
`compute_throughput` returns `(clamped delta * 8) / (1_000_000 * elapsed)`
in each direction; in particular `{rx:1000,tx:500} → {rx:9000,tx:4500}`
over 1 s gives download 0.064 Mbps and upload 0.032 Mbps. -/
theorem compute_throughput_rate_formula (previous current : InterfaceBytes)
    (elapsed : ℚ) (_h : 0 < elapsed) :
    (compute_throughput previous current elapsed).1 =
      ((current.rx_bytes - previous.rx_bytes : ℕ) : ℚ) * 8 /
        (1000000 * elapsed) ∧
    (compute_throughput previous current elapsed).2 =
      ((current.tx_bytes - previous.tx_bytes : ℕ) : ℚ) * 8 /
        (1000000 * elapsed) ∧
    compute_throughput ⟨1000, 500⟩ ⟨9000, 4500⟩ 1 = (64 / 1000, 32 / 1000) := by
  refine ⟨?_, ?_, ?_⟩
  · simp [compute_throughput, rx_delta_eq_natSub]
  · simp [compute_throughput, tx_delta_eq_natSub]
  · rw [Prod.ext_iff]
    norm_num [compute_throughput, rx_delta_eq_natSub, tx_delta_eq_natSub]

theorem compute_throughput_rate_formula_witness :
    (0 : ℚ) < 1 ∧
    (compute_throughput ⟨1000, 500⟩ ⟨9000, 4500⟩ 1).1 =
      ((9000 - 1000 : ℕ) : ℚ) * 8 / (1000000 * 1) :=
  ⟨by norm_num,
   (compute_throughput_rate_formula ⟨1000, 500⟩ ⟨9000, 4500⟩ 1
      (by norm_num)).1⟩

/-- C3: a direction whose current counter is below the previous one gets
delta 0 (deltas are never negative), and with positive elapsed time both
rates are nonnegative. -/
theorem clamped_delta_nonneg_rates (previous current : InterfaceBytes)
    (elapsed : ℚ) :
    (current.rx_bytes < previous.rx_bytes → rx_delta previous current = 0) ∧
    (current.tx_bytes < previous.tx_bytes → tx_delta previous current = 0) ∧
    0 ≤ rx_delta previous current ∧
    0 ≤ tx_delta previous current ∧
    (0 < elapsed →
      0 ≤ (compute_throughput previous current elapsed).1 ∧
      0 ≤ (compute_throughput previous current elapsed).2) := by
  refine ⟨?_, ?_, ?_, ?_, ?_⟩
  · intro h; unfold rx_delta; omega
  · intro h; unfold tx_delta; omega
  · unfold rx_delta; exact le_max_right _ _
  · unfold tx_delta; exact le_max_right _ _
  · intro h
    have hd : (0 : ℚ) ≤ 1000000 * elapsed := by positivity
    constructor
    · apply div_nonneg _ hd
      apply mul_nonneg _ (by norm_num)
      have : (0 : ℤ) ≤ rx_delta previous current := by
        unfold rx_delta; exact le_max_right _ _
      exact_mod_cast this
    · apply div_nonneg _ hd
      apply mul_nonneg _ (by norm_num)
      have : (0 : ℤ) ≤ tx_delta previous current := by
        unfold tx_delta; exact le_max_right _ _
      exact_mod_cast this

theorem clamped_delta_nonneg_rates_witness :
    (9000 : ℕ) < 10000 ∧ rx_delta ⟨10000, 500⟩ ⟨9000, 4500⟩ = 0 ∧
    (0 : ℚ) < 1 ∧ 0 ≤ (compute_throughput ⟨10000, 500⟩ ⟨9000, 4500⟩ 1).1 := by
  refine ⟨by norm_num, ?_, by norm_num, ?_⟩
  · exact (clamped_delta_nonneg_rates ⟨10000, 500⟩ ⟨9000, 4500⟩ 1).1
      (by norm_num)
  · exact ((clamped_delta_nonneg_rates ⟨10000, 500⟩ ⟨9000, 4500⟩ 1).2.2.2.2
      (by norm_num)).1

/-- C6: the duration passed to `time.sleep` each tick is
`max(interval - (now - t0), 0)`; it is never negative, and when the probe
alone took at least the whole interval the sleep is 0 (skipped, not an
error). -/
theorem sleep_drift_correction (interval : ℚ) (env : TickEnv)
    (s : MonState) :
    (tick interval env s).2.2 = max (interval - env.probeDuration) 0 ∧
    0 ≤ (tick interval env s).2.2 ∧
    (interval ≤ env.probeDuration → (tick interval env s).2.2 = 0) := by
  refine ⟨rfl, ?_, fun h => ?_⟩
  · rw [tick_sleep]; exact le_max_right _ _
  · rw [tick_sleep]; exact max_eq_right (sub_nonpos.mpr h)

theorem sleep_drift_correction_witness :
    (1 : ℚ) ≤ overrunEnv.probeDuration ∧
    (tick 1 overrunEnv (initState ⟨1000, 500⟩ none)).2.2 = 0 :=
  ⟨by norm_num [overrunEnv],
   (sleep_drift_correction 1 overrunEnv (initState ⟨1000, 500⟩ none)).2.2
     (by norm_num [overrunEnv])⟩

/-! ### Loss accumulator lemmas -/

theorem stateAfter_total_pings (interval : ℚ) (env : ℕ → TickEnv)
    (s : MonState) (k : ℕ) :
    (stateAfter interval env s k).total_pings = s.total_pings + k := by
  induction k with
  | zero => rfl
  | succ k ih => rw [stateAfter, tick_total_pings, ih, Nat.add_assoc]

theorem lostCount_succ (env : ℕ → TickEnv) (k : ℕ) :
    lostCount env (k + 1) =
      lostCount env k + (if probeFailed env k then 1 else 0) := by
  unfold lostCount
  rw [List.range_succ, List.filter_append, List.length_append]
  by_cases h : probeFailed env k <;> simp [h]

theorem stateAfter_lost_pings (interval : ℚ) (env : ℕ → TickEnv)
    (s : MonState) (k : ℕ) :
    (stateAfter interval env s k).lost_pings =
      s.lost_pings + lostCount env k := by
  induction k with
  | zero => simp [stateAfter, lostCount]
  | succ k ih =>
    rw [stateAfter, tick_lost_pings, ih, lostCount_succ]
    simp [probeFailed, Option.isNone_iff_eq_none, Nat.add_assoc]

theorem lostCount_le (env : ℕ → TickEnv) (k : ℕ) : lostCount env k ≤ k := by
  have := List.length_filter_le (probeFailed env) (List.range k)
  simpa [lostCount] using this

/-- C4: each tick increments the total probe count by exactly 1 and the
lost count by 1 exactly when that tick's probe failed; starting from the
run's initial state the counts only accumulate (total after k ticks is k,
lost is the number of failed probes), so `lost_pings ≤ total_pings` holds
after every tick. -/
theorem loss_invariant_every_tick (interval : ℚ) (env : ℕ → TickEnv)
    (previous : InterfaceBytes) (count : Option ℤ) (k : ℕ) (s : MonState) :
    (tick interval (env k) s).1.total_pings = s.total_pings + 1 ∧
    (tick interval (env k) s).1.lost_pings =
      s.lost_pings + (if probeFailed env k then 1 else 0) ∧
    (stateAfter interval env (initState previous count) k).total_pings
      = k ∧
    (stateAfter interval env (initState previous count) k).lost_pings
      = lostCount env k ∧
    (stateAfter interval env (initState previous count) k).lost_pings ≤
      (stateAfter interval env (initState previous count) k).total_pings := by
  refine ⟨tick_total_pings _ _ _, ?_, ?_, ?_, ?_⟩
  · rw [tick_lost_pings]
    simp [probeFailed, Option.isNone_iff_eq_none]
  · rw [stateAfter_total_pings]; simp [initState]
  · rw [stateAfter_lost_pings]; simp [initState]
  · rw [stateAfter_total_pings, stateAfter_lost_pings]
    simp only [initState, Nat.zero_add]
    exact lostCount_le env k

/-- C5: the nth emitted sample reports
`loss_pct = 100 * (failed probes among the first n ticks) / n`; the loss
formula yields 0 when the total probe count is 0; and with probes
succeeding, succeeding, failing under `--count 3` the final sample
reports 100/3, which is 33.33 to two decimals. -/
theorem loss_pct_formula (interval : ℚ) (env : ℕ → TickEnv)
    (previous : InterfaceBytes) (count : Option ℤ) (n l : ℕ)
    (hn : 0 < n) :
    (sampleAt interval env (initState previous count) (n - 1)).packet_loss_pct
      = 100 * (lostCount env n : ℚ) / (n : ℚ) ∧
    loss_pct_of l 0 = 0 ∧
    (probeFailed env 0 = false → probeFailed env 1 = false →
      probeFailed env 2 = true →
      (sampleAt interval env (initState previous (some 3)) 2).packet_loss_pct
        = 100 / 3 ∧
      |(100 : ℚ) / 3 - 3333 / 100| < 1 / 200) := by
  have key : ∀ (count : Option ℤ) (m : ℕ), 0 < m →
      (sampleAt interval env (initState previous count)
        (m - 1)).packet_loss_pct
        = 100 * (lostCount env m : ℚ) / (m : ℚ) := by
    intro count m hm
    have h1 : m - 1 + 1 = m := Nat.succ_pred_eq_of_pos hm
    unfold sampleAt
    rw [tick_sample_loss, stateAfter_total_pings, stateAfter_lost_pings]
    simp only [initState, Nat.zero_add]
    have h2 :
        (if measure_latency (env (m - 1)).probeReturncode
            (env (m - 1)).probeStdout = none then 1 else 0)
          = (if probeFailed env (m - 1) then 1 else 0) := by
      simp [probeFailed, Option.isNone_iff_eq_none]
    rw [h2, ← lostCount_succ, h1]
    unfold loss_pct_of
    rw [if_pos (Nat.pos_iff_ne_zero.mp hm)]
    ring
  refine ⟨key count n hn, by simp [loss_pct_of], fun h0 h1 h2 => ?_⟩
  have h3 : lostCount env 3 = 1 := by
    have hr : List.range 3 = [0, 1, 2] := rfl
    simp [lostCount, hr, List.filter_cons, h0, h1, h2]
  have := key (some 3) 3 (by norm_num)
  rw [show (3 : ℕ) - 1 = 2 from rfl] at this
  rw [this, h3]
  constructor
  · norm_num
  · rw [abs_of_pos (by norm_num)]
    norm_num

theorem loss_pct_formula_witness :
    (0 : ℕ) < 3 ∧
    (sampleAt 1 envSSF (initState ⟨100, 50⟩ (some 3)) (3 - 1)).packet_loss_pct
      = 100 * (lostCount envSSF 3 : ℚ) / (3 : ℚ) :=
  ⟨by decide,
   (loss_pct_formula 1 envSSF ⟨100, 50⟩ (some 3) 3 0 (by decide)).1⟩

/-! ### Loop termination lemmas -/

theorem runLoop_length_of_none (interval : ℚ) :
    ∀ (fuel : ℕ) (env : ℕ → TickEnv) (s : MonState),
      s.iterations = none →
      (runMonitorLoop interval env s fuel).length = fuel := by
  intro fuel
  induction fuel with
  | zero => intro env s h; rfl
  | succ f ih =>
    intro env s h
    have hc : loopCond s.iterations = true := by rw [h]; rfl
    have hit : (tick interval (env 0) s).1.iterations = none := by
      rw [tick_iterations, h]; rfl
    simp only [runMonitorLoop, hc, if_true, List.length_cons]
    rw [ih _ _ hit]

theorem runLoop_length_of_some (interval : ℚ) :
    ∀ (m : ℕ) (fuel : ℕ) (env : ℕ → TickEnv) (s : MonState),
      s.iterations = some (m : ℤ) → m ≤ fuel →
      (runMonitorLoop interval env s fuel).length = m := by
  intro m
  induction m with
  | zero =>
    intro fuel env s h _
    have hc : loopCond s.iterations = false := by rw [h]; rfl
    cases fuel with
    | zero => rfl
    | succ f => simp [runMonitorLoop, hc]
  | succ m ih =>
    intro fuel env s h hle
    cases fuel with
    | zero => omega
    | succ f =>
      have hc : loopCond s.iterations = true := by
        rw [h]; simp only [loopCond, decide_eq_true_eq]; positivity
      have hit : (tick interval (env 0) s).1.iterations = some ((m : ℕ) : ℤ) := by
        rw [tick_iterations, h, Option.map_some']
        congr 1
        push_cast
        ring
      simp only [runMonitorLoop, hc, if_true, List.length_cons]
      rw [ih f _ _ hit (by omega)]

/-- C7: with a configured count `n > 0` the loop stops by itself after
emitting exactly `n` samples (its sample list has length `n` whenever at
least `n` fuel is available); with no configured count the loop never
stops by itself (it consumes however much fuel it is given). -/
theorem count_exact_samples (interval : ℚ) (env : ℕ → TickEnv)
    (previous : InterfaceBytes) (n : ℤ) (hn : 0 < n) :
    (∀ fuel, n.toNat ≤ fuel →
      (runMonitorLoop interval env (initState previous (some n)) fuel).length
        = n.toNat) ∧
    (∀ fuel,
      (runMonitorLoop interval env (initState previous none) fuel).length
        = fuel) := by
  constructor
  · intro fuel hf
    apply runLoop_length_of_some interval n.toNat fuel env _ _ hf
    simp [initState, initIterations, if_pos hn, Int.toNat_of_nonneg hn.le]
  · intro fuel
    exact runLoop_length_of_none interval fuel env _ rfl

theorem count_exact_samples_witness :
    (0 : ℤ) < 2 ∧ (2 : ℤ).toNat ≤ 5 ∧
    (runMonitorLoop 1 envSSF (initState ⟨100, 50⟩ (some 2)) 5).length
      = (2 : ℤ).toNat :=
  ⟨by decide, by decide,
   (count_exact_samples 1 envSSF ⟨100, 50⟩ 2 (by decide)).1 5 (by decide)⟩

/-- C9: a configured count that is zero or negative is parsed to the same
iteration budget as an omitted count (the initial state is identical), so
the loop runs unboundedly — not zero iterations and not an error. -/
theorem nonpositive_count_unbounded (interval : ℚ) (env : ℕ → TickEnv)
    (previous : InterfaceBytes) (n : ℤ) (fuel : ℕ) (hn : n ≤ 0) :
    initState previous (some n) = initState previous none ∧
    (runMonitorLoop interval env (initState previous (some n)) fuel).length
      = fuel := by
  have h : initIterations (some n) = none := by
    have he : initIterations (some n) = if 0 < n then some n else none := rfl
    rw [he, if_neg (not_lt.mpr hn)]
  constructor
  · unfold initState
    rw [h]
    rfl
  · apply runLoop_length_of_none
    simp [initState, h]

theorem nonpositive_count_unbounded_witness :
    (0 : ℤ) ≤ 0 ∧
    (runMonitorLoop 1 envSSF (initState ⟨100, 50⟩ (some 0)) 4).length = 4 :=
  ⟨by decide,
   (nonpositive_count_unbounded 1 envSSF ⟨100, 50⟩ 0 4 (by decide)).2⟩

/-! ### Startup failure -/

/-- A counter source with only a loopback and one ethernet interface. -/
def smallSource : List (String × InterfaceBytes) :=
  [("lo", ⟨10, 20⟩), ("eth0", ⟨30, 40⟩)]

/-- C8: when an explicitly configured (non-empty) interface name is
absent from the counter source's enumeration, `run_monitor` fails with
`interfaceNotFound` at the initial snapshot, producing no output events
— no header and no sample lines. -/
theorem interface_not_found_no_output
    (source : List (String × InterfaceBytes)) (iface host : String)
    (interval : ℚ) (count : Option ℤ) (env : ℕ → TickEnv) (fuel : ℕ)
    (hne : iface ≠ "") (habs : iface ∉ available_interfaces source) :
    run_monitor source (some iface) host interval count env fuel =
      .error (.interfaceNotFound iface) := by
  have hres : resolveInterface source (some iface) = .ok iface := by
    simp [resolveInterface, hne]
  have hread : read_interface_bytes source iface =
      .error (.interfaceNotFound iface) := by
    unfold read_interface_bytes
    have hfind : source.find? (fun p => p.1 == iface) = none := by
      rw [List.find?_eq_none]
      intro p hp
      simp only [beq_iff_eq]
      intro hcontra
      exact habs (hcontra ▸ List.mem_map_of_mem Prod.fst hp)
    rw [hfind]
  simp [run_monitor, hres, hread]

theorem interface_not_found_no_output_witness :
    ("eth9" ≠ "" ∧ "eth9" ∉ available_interfaces smallSource) ∧
    run_monitor smallSource (some "eth9") "8.8.8.8" 1 none envSSF 3 =
      .error (.interfaceNotFound "eth9") :=
  ⟨⟨by decide, by decide⟩,
   interface_not_found_no_output smallSource "eth9" "8.8.8.8" 1 none envSSF 3
     (by decide) (by decide)⟩

/-! ### Silent probe loss -/

/-- C10: `measure_latency` returns `none` even with exit code 0 when the
stdout holds no `time=… ms` pattern, and the scheduler then counts that
tick as a lost probe exactly as for any failed probe, with the sample's
latency field absent. -/
theorem silent_probe_loss (stdout : String) (interval : ℚ)
    (env : ℕ → TickEnv) (k : ℕ) (s : MonState)
    (hpat : searchTime stdout.data = none)
    (hfail : probeFailed env k = true) :
    measure_latency 0 stdout = none ∧
    (tick interval (env k) s).1.lost_pings = s.lost_pings + 1 ∧
    (tick interval (env k) s).2.1.latency_ms = none := by
  have hml : measure_latency (env k).probeReturncode (env k).probeStdout
      = none := by
    unfold probeFailed at hfail
    exact Option.isNone_iff_eq_none.mp hfail
  refine ⟨?_, ?_, ?_⟩
  · simp [measure_latency, hpat]
  · rw [tick_lost_pings, hml]; rfl
  · rw [tick_sample_latency]; exact hml

theorem silent_probe_loss_witness :
    (searchTime noTimeStdout.data = none ∧ probeFailed envSSF 2 = true) ∧
    (measure_latency 0 noTimeStdout = none ∧
      (tick 1 (envSSF 2) (initState ⟨100, 50⟩ none)).1.lost_pings =
        (initState ⟨100, 50⟩ none).lost_pings + 1 ∧
      (tick 1 (envSSF 2) (initState ⟨100, 50⟩ none)).2.1.latency_ms
        = none) :=
  ⟨⟨by decide, by decide⟩,
   silent_probe_loss noTimeStdout 1 envSSF 2 (initState ⟨100, 50⟩ none)
     (by decide) (by decide)⟩

/-! ### The elapsed argument of the throughput computation -/

/-- C1 fails on the code: with a configured interval of 1 s and an actual
wall-clock gap of 2.5 s between counter reads, the emitted download rate
is the one computed from the nominal interval, and differs from the rate
computed from the measured gap — the code passes `args.interval or 1.0`,
not the measured gap. -/
theorem elapsed_arg_counterexample :
    overrunEnv.gapSincePrevRead ≠ throughputInterval 1 ∧
    (tick 1 overrunEnv (initState ⟨1000, 500⟩ none)).2.1.download_mbps =
      (compute_throughput ⟨1000, 500⟩ overrunEnv.counters
        (throughputInterval 1)).1 ∧
    (tick 1 overrunEnv (initState ⟨1000, 500⟩ none)).2.1.download_mbps ≠
      (compute_throughput ⟨1000, 500⟩ overrunEnv.counters
        overrunEnv.gapSincePrevRead).1 := by
  refine ⟨by norm_num [overrunEnv, throughputInterval], rfl, ?_⟩
  rw [tick_sample_download]
  norm_num [compute_throughput, rx_delta_eq_natSub, overrunEnv,
    throughputInterval, initState]

/-- C1 amended: the elapsed argument every tick passes to
`compute_throughput` is the nominal configured interval (with the
`or 1.0` fallback when the configured interval is 0), never the measured
wall-clock gap. -/
theorem elapsed_arg_is_nominal_interval (interval : ℚ) (env : TickEnv)
    (s : MonState) :
    (tick interval env s).2.1.download_mbps =
      (compute_throughput s.previous_bytes env.counters
        (throughputInterval interval)).1 ∧
    (tick interval env s).2.1.upload_mbps =
      (compute_throughput s.previous_bytes env.counters
        (throughputInterval interval)).2 ∧
    throughputInterval interval = if interval = 0 then 1 else interval :=
  ⟨rfl, rfl, rfl⟩

end NetworkMonitor
